import Mathlib

/-!
Verification development for the RunAnywhere sandbox execution subsystem
(backend/runanywhere: security_manager.py, sandbox_manager.py,
execution_controller.py, and the /execute/code endpoint of main_v2.py).

The Python source is shallowly embedded: pure functions become Lean
functions; the asynchronous orchestration becomes pure functions
parameterised by an oracle that supplies the outcome of every external
(Docker) call, together with an explicit trace of the calls that were
issued.  Every regular-expression search in the source uses `re.search` /
`re.findall` with `re.IGNORECASE`, modelled by a Brzozowski-derivative
matcher over lower-cased character classes.
-/

/-! ## A small regular-expression engine

Models the fragment of Python `re` used by `security_manager.py`:
literal characters (case-insensitive, as every call passes
`re.IGNORECASE`), character classes, `.` (any character except newline),
`\s`, `\d`, concatenation, alternation, `*`, `+` and `{6,}`.
`re.MULTILINE` only affects `^`/`$`, which no pattern uses. -/

inductive Re
  | emp
  | eps
  | cls (cs : List Char)
  | anyc
  | seq (a b : Re)
  | alt (a b : Re)
  | star (a : Re)

/-- A class matches a character by comparing its lower-cased form
(every search in the source passes `re.IGNORECASE`). -/
def Re.nullable : Re → Bool
  | .emp => false
  | .eps => true
  | .cls _ => false
  | .anyc => false
  | .seq a b => a.nullable && b.nullable
  | .alt a b => a.nullable || b.nullable
  | .star _ => true

def Re.deriv : Re → Char → Re
  | .emp, _ => .emp
  | .eps, _ => .emp
  | .cls cs, c => if cs.contains c.toLower then .eps else .emp
  | .anyc, c => if c == '\n' then .emp else .eps
  | .seq a b, c => if a.nullable then .alt (.seq (a.deriv c) b) (b.deriv c) else .seq (a.deriv c) b
  | .alt a b, c => .alt (a.deriv c) (b.deriv c)
  | .star a, c => .seq (a.deriv c) (.star a)

/-- Does some prefix of `s` match `r`? -/
def matchHere : Re → List Char → Bool
  | r, [] => r.nullable
  | r, c :: cs => r.nullable || matchHere (r.deriv c) cs

/-- Python `re.search(r, s)` as a Boolean: does some substring of `s`
match `r`? -/
def reSearch (r : Re) : List Char → Bool
  | [] => r.nullable
  | c :: cs => matchHere r (c :: cs) || reSearch r cs

/-- A case-insensitive literal character (`re.IGNORECASE`). -/
def chc (c : Char) : Re := .cls [c.toLower]

/-- A case-insensitive literal word, e.g. the pattern `github\.com`. -/
def strRe (s : String) : Re := s.data.foldr (fun c r => .seq (chc c) r) .eps

/-- Python `\s` (whitespace class). -/
def wsRe : Re := .cls [' ', '\t', '\n', '\x0d', '\x0c', '\x0b']

/-- Python `\d`. -/
def digitRe : Re := .cls ['0', '1', '2', '3', '4', '5', '6', '7', '8', '9']

/-- The regex `r+`. -/
def rePlus (r : Re) : Re := .seq r (.star r)

/-- The regex `.*`. -/
def dotStar : Re := .star .anyc

/-- The regex `\d{6,}`. -/
def sixDigits : Re :=
  .seq digitRe (.seq digitRe (.seq digitRe (.seq digitRe (.seq digitRe (rePlus digitRe)))))

/-- Python `str.lower()` (character-wise; the repository only feeds it
ASCII language names and tech tags).  `String.toLower` itself does not
reduce in the kernel, so the map is taken over the character list. -/
def strLower (s : String) : String := String.mk (s.data.map Char.toLower)

/-! ## SecurityManager (security_manager.py) -/

/-- Risk levels, ordered `safe < low < medium < high`
(`["safe", "low", "medium", "high"].index`). -/
inductive Risk
  | safe
  | low
  | medium
  | high
deriving DecidableEq, Repr

def Risk.idx : Risk → Nat
  | .safe => 0
  | .low => 1
  | .medium => 2
  | .high => 3

/-- Python `max(a, b, key=lambda x: [...].index(x))`: returns `a` on ties. -/
def maxRisk (a b : Risk) : Risk := if b.idx ≤ a.idx then a else b

/-- One entry of the `issues` list built by `validate_code`.  The Python
dict fields `matches`/`size` are elided; `pattern` records the
regex source text (empty for the `code_too_large` issue, which has no
pattern). -/
structure Issue where
  itype : String
  pattern : String
  severity : Risk
deriving DecidableEq, Repr

/-- The dict returned by `validate_code`. -/
structure Verdict where
  is_safe : Bool
  risk_level : Risk
  issues : List Issue
  strict_mode : Bool
deriving DecidableEq, Repr

/-- The table `DANGEROUS_PATTERNS["python"]`, each with its source text. -/
def PY_DANGEROUS : List (String × Re) :=
  [ ("import\\s+os", .seq (strRe "import") (.seq (rePlus wsRe) (strRe "os"))),
    ("import\\s+subprocess", .seq (strRe "import") (.seq (rePlus wsRe) (strRe "subprocess"))),
    ("import\\s+sys", .seq (strRe "import") (.seq (rePlus wsRe) (strRe "sys"))),
    ("__import__", strRe "__import__"),
    ("eval\\s*\\(", .seq (strRe "eval") (.seq (.star wsRe) (chc '('))),
    ("exec\\s*\\(", .seq (strRe "exec") (.seq (.star wsRe) (chc '('))),
    ("compile\\s*\\(", .seq (strRe "compile") (.seq (.star wsRe) (chc '('))),
    ("open\\s*\\(", .seq (strRe "open") (.seq (.star wsRe) (chc '('))),
    ("file\\s*\\(", .seq (strRe "file") (.seq (.star wsRe) (chc '('))) ]

/-- The table `DANGEROUS_PATTERNS["javascript"]`. -/
def JS_DANGEROUS : List (String × Re) :=
  [ ("require\\s*\\(\\s*[\x27\\\"]child_process[\x27\\\"]",
      .seq (strRe "require") (.seq (.star wsRe) (.seq (chc '(') (.seq (.star wsRe)
        (.seq (.cls [Char.ofNat 39, '"']) (.seq (strRe "child_process")
          (.cls [Char.ofNat 39, '"']))))))),
    ("require\\s*\\(\\s*[\x27\\\"]fs[\x27\\\"]",
      .seq (strRe "require") (.seq (.star wsRe) (.seq (chc '(') (.seq (.star wsRe)
        (.seq (.cls [Char.ofNat 39, '"']) (.seq (strRe "fs")
          (.cls [Char.ofNat 39, '"']))))))),
    ("eval\\s*\\(", .seq (strRe "eval") (.seq (.star wsRe) (chc '('))),
    ("Function\\s*\\(", .seq (strRe "Function") (.seq (.star wsRe) (chc '('))),
    ("process\\.exit", strRe "process.exit"),
    ("process\\.kill", strRe "process.kill") ]

/-- The table `DANGEROUS_PATTERNS["bash"]`. -/
def BASH_DANGEROUS : List (String × Re) :=
  [ ("rm\\s+-rf", .seq (strRe "rm") (.seq (rePlus wsRe) (strRe "-rf"))),
    ("mkfs", strRe "mkfs"),
    ("dd\\s+if=", .seq (strRe "dd") (.seq (rePlus wsRe) (strRe "if="))),
    (":\\(\\)\\\x7b.*\\\x7d",
      .seq (chc ':') (.seq (chc '(') (.seq (chc ')') (.seq (.cls [Char.ofNat 123])
        (.seq dotStar (.cls [Char.ofNat 125])))))),
    ("curl.*\\|.*bash", .seq (strRe "curl") (.seq dotStar (.seq (chc '|') (.seq dotStar (strRe "bash"))))),
    ("wget.*\\|.*sh", .seq (strRe "wget") (.seq dotStar (.seq (chc '|') (.seq dotStar (strRe "sh"))))) ]

/-- Models `SecurityManager.DANGEROUS_PATTERNS.get(language, [])` (the caller
passes `language.lower()`). -/
def DANGEROUS_PATTERNS (lang : String) : List (String × Re) :=
  if lang == "python" then PY_DANGEROUS
  else if lang == "javascript" then JS_DANGEROUS
  else if lang == "bash" then BASH_DANGEROUS
  else []

/-- The `loop_patterns` list of `validate_code`. -/
def LOOP_PATTERNS : List (String × Re) :=
  [ ("while\\s+True", .seq (strRe "while") (.seq (rePlus wsRe) (strRe "True"))),
    ("while\\s+1", .seq (strRe "while") (.seq (rePlus wsRe) (chc '1'))),
    ("for\\s+.*\\s+in\\s+range\\s*\\(\\s*\\d\x7b6,\x7d",
      .seq (strRe "for") (.seq (rePlus wsRe) (.seq dotStar (.seq (rePlus wsRe)
        (.seq (strRe "in") (.seq (rePlus wsRe) (.seq (strRe "range")
          (.seq (.star wsRe) (.seq (chc '(') (.seq (.star wsRe) sixDigits)))))))))) ]

/-- Loop body of the dangerous-pattern scan: on a match, append an issue
(severity `high` when strict, else `medium`) and set `risk_level = high`. -/
def dangerStep (strict_mode : Bool) (code : List Char) (acc : List Issue × Risk)
    (p : String × Re) : List Issue × Risk :=
  if reSearch p.2 code then
    (acc.1 ++ [⟨"dangerous_pattern", p.1, if strict_mode then .high else .medium⟩], .high)
  else acc

/-- Loop body of the excessive-loop scan: on a match, append a
severity-`medium` issue and raise `risk_level` to at least `medium`. -/
def loopStep (code : List Char) (acc : List Issue × Risk) (p : String × Re) :
    List Issue × Risk :=
  if reSearch p.2 code then
    (acc.1 ++ [⟨"potential_infinite_loop", p.1, .medium⟩], maxRisk acc.2 .medium)
  else acc

/-- Models `SecurityManager.validate_code(code, language, strict_mode)`. -/
def validate_code (code language : String) (strict_mode : Bool) : Verdict :=
  let s1 := (DANGEROUS_PATTERNS (strLower language)).foldl (dangerStep strict_mode code.data) ([], .safe)
  let s2 := if 100000 < code.length
    then (s1.1 ++ [⟨"code_too_large", "", .medium⟩], maxRisk s1.2 .medium)
    else s1
  let s3 := LOOP_PATTERNS.foldl (loopStep code.data) s2
  ⟨(s3.2 != .high) || !strict_mode, s3.2, s3.1, strict_mode⟩

/-- The `safe_domains` regexes of `validate_repository_url`
(`github\.com`, `gitlab\.com`, `bitbucket\.org`, all searched with
`re.IGNORECASE`). -/
def SAFE_DOMAINS : List Re := [strRe "github.com", strRe "gitlab.com", strRe "bitbucket.org"]

/-- Models `SecurityManager.validate_repository_url(repo_url)`. -/
def validate_repository_url (repo_url : String) : Bool :=
  SAFE_DOMAINS.any (fun d => reSearch d repo_url.data)

/-! Spec-side helpers for comparing `validate_repository_url` against the
words of the claim. -/

/-- Case-insensitive "is `w` a prefix of `s`" on character lists. -/
def isPrefCI : List Char → List Char → Bool
  | [], _ => true
  | _ :: _, [] => false
  | a :: as, b :: bs => (b.toLower == a.toLower) && isPrefCI as bs

/-- Case-insensitive substring containment: does `w` occur in `s`? -/
def containsCI (w : List Char) : List Char → Bool
  | [] => w.isEmpty
  | c :: cs => isPrefCI w (c :: cs) || containsCI w cs

/-- Chars after the first `://` of a URL (the whole string when there is
no scheme separator). -/
def afterScheme : List Char → List Char
  | [] => []
  | ':' :: '/' :: '/' :: rest => rest
  | _ :: rest => afterScheme rest

/-- The host component of a URL, as the words of the claim speak of it: the
characters after `://` up to the first `/`, `:`, `?` or `#`. -/
def urlHost (url : String) : String :=
  String.mk ((afterScheme url.data).takeWhile
    (fun c => !(c == '/') && !(c == ':') && !(c == '?') && !(c == '#')))

/-- Maximum severity over a list of issues (`safe` for the empty list);
formalises the claim text "maximum severity over all matched issues". -/
def maxSeverity (issues : List Issue) : Risk :=
  issues.foldl (fun a i => maxRisk a i.severity) .safe

/-! ## SandboxManager (sandbox_manager.py)

External Docker calls cannot run here, so each operation is parameterised
by an oracle value giving the outcome of the engine call it wraps. -/

/-- The `image_map` dict of `create_sandbox`, with its
`get(language.lower(), "ubuntu:22.04")` default. -/
def image_map (lang : String) : String :=
  if lang == "python" then "python:3.11-slim"
  else if lang == "node" then "node:18-alpine"
  else if lang == "javascript" then "node:18-alpine"
  else if lang == "java" then "openjdk:17-slim"
  else if lang == "go" then "golang:1.21-alpine"
  else if lang == "rust" then "rust:1.75-slim"
  else if lang == "flutter" then "cirrusci/flutter:stable"
  else if lang == "dart" then "dart:stable"
  else if lang == "ruby" then "ruby:3.2-alpine"
  else if lang == "php" then "php:8.2-cli-alpine"
  else if lang == "cpp" then "gcc:13-alpine"
  else if lang == "c" then "gcc:13-alpine"
  else "ubuntu:22.04"

/-- The arguments `create_sandbox` receives from a caller. -/
structure CreateCfg where
  language : String
  memory_limit : String
  cpu_limit : ℚ
  timeout : ℚ
  network_enabled : Bool
deriving DecidableEq, Repr

/-- The container settings `create_sandbox` passes to
`docker_client.containers.create` (the tmpfs mount and the labels dict
are elided; `nano_cpus` is determined by `cpu_limit`). -/
structure ContainerCfg where
  image : String
  command : String
  mem_limit : String
  network_mode : String
  network_disabled : Bool
  cap_drop : List String
  security_opt : List String
  read_only : Bool
deriving DecidableEq, Repr

/-- The `containers.create(...)` keyword arguments built by
`create_sandbox` for a request `c`. -/
def containerConfig (c : CreateCfg) : ContainerCfg :=
  { image := image_map (strLower c.language),
    command := "/bin/sleep 3600",
    mem_limit := c.memory_limit,
    network_mode := if c.network_enabled then "bridge" else "none",
    network_disabled := !c.network_enabled,
    cap_drop := ["ALL"],
    security_opt := ["no-new-privileges"],
    read_only := false }

/-- Models `SandboxManager.create_sandbox`.  `available` is `is_available()`;
`engine` is the oracle for the `try` block: `some sid` when the container
is created, started and registered, `none` when the engine call raised
(the `except` branch catches every exception and returns `None`).  The
function is total: it never raises. -/
def create_sandbox (available : Bool) (c : CreateCfg) (engine : Option String) : Option String :=
  if !available then none else engine

/-- The dict returned by `execute_in_sandbox` (all six keys). -/
structure ExecResult where
  success : Bool
  error : Option String
  stdout : String
  stderr : String
  exit_code : Int
  execution_time : ℚ
deriving DecidableEq, Repr

/-- Oracle for one `container.exec_run` call: either the command ran and
returned output, an exit code and a measured wall time, or an unexpected
engine fault reached the `except` branch. -/
inductive ExecOutcome
  | raise (msg : String)
  | ok (stdout stderr : String) (exit_code : Int) (wall_time : ℚ)
deriving DecidableEq, Repr

/-- Models `SandboxManager.execute_in_sandbox`.  `found` is the registry lookup
`sandbox_id in self.active_sandboxes`.  The wall time measured around
`exec_run` is compared against `timeout` strictly (`execution_time >
timeout`); the `sh -c cd && run` shell wrapping of the command is
not observable in the result and is elided. -/
def execute_in_sandbox (found : Bool) (timeout : ℚ) (o : ExecOutcome) : ExecResult :=
  if !found then
    ⟨false, some "Sandbox not found", "", "Sandbox does not exist", -1, 0⟩
  else match o with
  | .raise e => ⟨false, some e, "", e, -1, 0⟩
  | .ok out err code wall =>
    if timeout < wall then
      ⟨false, some "Execution timeout", "",
        "Command exceeded " ++ toString timeout ++ "s timeout", -1, wall⟩
    else
      ⟨code == 0, none, out, err, code, wall⟩

/-! ## ExecutionController (execution_controller.py) -/

/-- Substring containment on character lists (Python `in` on strings). -/
def containsSub (w : List Char) : List Char → Bool
  | [] => w.isEmpty
  | c :: cs => w.isPrefixOf (c :: cs) || containsSub w cs

/-- Python `needle in hay` for strings. -/
def strContains (needle hay : String) : Bool := containsSub needle.data hay.data

/-- The repository metadata fields `analyze_repository_executability`
reads from `repo_data`. -/
structure RepoData where
  language : String
  tech_stack : List String
  stars : Nat
  open_issues_count : Nat
deriving DecidableEq, Repr

/-- The analysis dict built by `analyze_repository_executability`. -/
structure Analysis where
  is_executable : Bool
  detected_runtime : Option String
  languages : List String
  setup_commands : List String
  run_command : Option String
  test_command : Option String
  build_command : Option String
  dependencies : List String
  estimated_complexity : String
  requires_docker : Bool
  requires_database : Bool
  confidence : ℚ
  issues : List String
deriving DecidableEq, Repr

/-- Models `ExecutionController.analyze_repository_executability(repo_data)`. -/
def analyze_repository_executability (rd : RepoData) : Analysis :=
  let language := strLower rd.language
  let techLower := rd.tech_stack.map strLower
  let base : Analysis :=
    ⟨false, none, if language == "" then [] else [language],
      [], none, none, none, [], "unknown", false, false, 0, []⟩
  let a1 :=
    if strContains "python" language || techLower.any (fun t => strContains "python" t) then
      { base with
        detected_runtime := some "python",
        is_executable := true,
        setup_commands := ["pip install --upgrade pip",
          "pip install -r requirements.txt || echo \x27No requirements.txt found\x27"],
        run_command := some "python main.py || python app.py || python src/main.py",
        test_command := some "pytest || python -m unittest discover",
        confidence := 85/100 }
    else if strContains "javascript" language || strContains "typescript" language
        || techLower.any (fun t => ["node", "react", "vue", "angular", "nextjs"].contains t) then
      { base with
        detected_runtime := some "node",
        is_executable := true,
        setup_commands := ["npm install || yarn install"],
        run_command := some "npm start || node index.js || node server.js",
        test_command := some "npm test",
        build_command := some "npm run build",
        confidence := 9/10 }
    else if techLower.contains "flutter" || strContains "dart" language then
      { base with
        detected_runtime := some "flutter",
        is_executable := true,
        setup_commands := ["flutter pub get"],
        run_command := some "flutter run -d web-server --web-port=8080",
        test_command := some "flutter test",
        build_command := some "flutter build web",
        confidence := 8/10 }
    else if strContains "java" language
        || techLower.any (fun t => ["spring", "maven", "gradle"].contains t) then
      { base with
        detected_runtime := some "java",
        is_executable := true,
        setup_commands := ["mvn clean install || gradle build"],
        run_command := some "mvn spring-boot:run || gradle bootRun || java -jar target/*.jar",
        test_command := some "mvn test || gradle test",
        build_command := some "mvn package || gradle build",
        confidence := 75/100 }
    else if strContains "go" language || strContains "golang" language then
      { base with
        detected_runtime := some "go",
        is_executable := true,
        setup_commands := ["go mod download"],
        run_command := some "go run main.go || go run .",
        test_command := some "go test ./...",
        build_command := some "go build",
        confidence := 85/100 }
    else if strContains "rust" language then
      { base with
        detected_runtime := some "rust",
        is_executable := true,
        setup_commands := ["cargo fetch"],
        run_command := some "cargo run",
        test_command := some "cargo test",
        build_command := some "cargo build --release",
        confidence := 85/100 }
    else base
  let a2 :=
    if techLower.any (fun t => ["docker", "kubernetes", "containerized"].contains t) then
      { a1 with
        requires_docker := true,
        setup_commands := "docker-compose up -d || docker build -t app ." :: a1.setup_commands }
    else a1
  let a3 :=
    if techLower.any (fun t => ["postgresql", "mysql", "mongodb", "redis", "database"].contains t) then
      { a2 with
        requires_database := true,
        issues := a2.issues ++ ["Repository requires database setup"] }
    else a2
  if rd.stars < 100 && rd.open_issues_count < 10 then
    { a3 with estimated_complexity := "simple" }
  else if rd.stars < 1000 && rd.open_issues_count < 50 then
    { a3 with estimated_complexity := "moderate" }
  else
    { a3 with estimated_complexity := "complex" }

/-- One entry of `execution_log` (the command text, captured output and
timestamps are elided; ordering in the list is issuance order, since the
source only ever appends). -/
structure LogEntry where
  step : String
  status : String
deriving DecidableEq, Repr

/-- Trace of the sandbox-manager calls an execution issues, in order. -/
inductive Event
  | create (cfg : CreateCfg) (sid : Option String)
  | exec (step : String) (command : String)
  | upload (path : String)
  | stats
  | stop (sid : String)
deriving DecidableEq, Repr

def Event.stopId : Event → Option String
  | .stop s => some s
  | _ => none

def Event.createdId : Event → Option String
  | .create _ (some s) => some s
  | _ => none

def Event.execStep : Event → Option String
  | .exec n _ => some n
  | _ => none

def Event.createCfg : Event → Option CreateCfg
  | .create c _ => some c
  | _ => none

/-- Outcome of one awaited sandbox-manager call as seen from inside the
controller `try` block: a returned value, or an unexpected fault that
propagates to the `except` branch. -/
inductive Outcome (α : Type)
  | ok (v : α)
  | raise (msg : String)

/-- The stats dict of `get_sandbox_stats` (`None` once the sandbox no
longer exists or the engine call fails; the function catches every
exception, so it has no raise outcome). -/
structure SandboxStats where
  cpu_percent : ℚ
  memory_usage_mb : ℚ
  memory_limit_mb : ℚ
  memory_percent : ℚ
  network_rx_bytes : Nat
  network_tx_bytes : Nat
deriving DecidableEq, Repr

/-- Oracle for the engine calls of one `execute_repository` run. -/
structure RepoOracle where
  create : Option String
  clone : Outcome ExecResult
  setup : Nat → Outcome ExecResult
  test : Outcome ExecResult
  build : Outcome ExecResult
  stats : Option SandboxStats

/-- The result dict of `execute_repository` (`execution_id`, the embedded
analysis, `total_execution_time` and `timestamp` are elided). -/
structure RepoResult where
  sandbox_id : Option String
  status : String
  error : Option String
  logs : List LogEntry
  resource_stats : Option SandboxStats
deriving DecidableEq, Repr

/-- The `for i, cmd in enumerate(analysis["setup_commands"])` loop:
each iteration appends a `running` entry, executes, then appends a
completion entry whose status is `success` or `warning`; an unexpected
fault aborts the loop after the `running` entry. -/
def runSetups : List String → (Nat → Outcome ExecResult) → Nat →
    List LogEntry × List Event × Option String
  | [], _, _ => ([], [], none)
  | cmd :: rest, oracle, i =>
    let nm := "setup_" ++ toString i
    match oracle i with
    | .raise e => ([⟨nm, "running"⟩], [.exec nm cmd], some e)
    | .ok r =>
      let tail := runSetups rest oracle (i + 1)
      (⟨nm, "running"⟩ :: ⟨nm, if r.success then "success" else "warning"⟩ :: tail.1,
        .exec nm cmd :: tail.2.1, tail.2.2)

/-- The optional test/build step: skipped when the analysis supplies no
command, otherwise a `running` entry, the execution, and a completion
entry whose status is `success` or `failed`. -/
def runOptStep (name : String) (cmd : Option String) (o : Outcome ExecResult) :
    List LogEntry × List Event × Option String :=
  match cmd with
  | none => ([], [], none)
  | some c =>
    match o with
    | .raise e => ([⟨name, "running"⟩], [.exec name c], some e)
    | .ok r =>
      ([⟨name, "running"⟩, ⟨name, if r.success then "success" else "failed"⟩],
        [.exec name c], none)

/-- The `failed_critical` predicate of `execute_repository`:
`log.get("status") == "failed" and log.get("step") in ["clone", "build"]`. -/
def isCriticalFailure (l : LogEntry) : Bool :=
  l.status == "failed" && (l.step == "clone" || l.step == "build")

/-- Models `ExecutionController.execute_repository(repo_url, repo_data, timeout)`,
returning the result dict together with the trace of sandbox-manager
calls it issued. -/
def execute_repository (repo_url : String) (rd : RepoData) (timeout : ℚ)
    (o : RepoOracle) : RepoResult × List Event :=
  let analysis := analyze_repository_executability rd
  if !analysis.is_executable then
    (⟨none, "failed", some "Repository is not executable", [], none⟩, [])
  else
    let cfg : CreateCfg := ⟨analysis.detected_runtime.getD "", "1g", 2, timeout, true⟩
    match o.create with
    | none =>
      (⟨none, "failed", some "Failed to create sandbox (Docker not available)", [], none⟩,
        [.create cfg none])
    | some sid =>
      let ev1 : List Event :=
        [.create cfg (some sid), .exec "clone" ("git clone " ++ repo_url ++ " /tmp/repo")]
      match o.clone with
      | .raise e => (⟨some sid, "error", some e, [⟨"clone", "running"⟩], none⟩, ev1 ++ [.stop sid])
      | .ok cr =>
        if !cr.success then
          (⟨some sid, "failed", some "Failed to clone repository",
            [⟨"clone", "running"⟩, ⟨"clone", "failed"⟩], none⟩, ev1 ++ [.stop sid])
        else
          let logs1 : List LogEntry := [⟨"clone", "running"⟩, ⟨"clone", "success"⟩]
          let su := runSetups analysis.setup_commands o.setup 0
          match su.2.2 with
          | some e =>
            (⟨some sid, "error", some e, logs1 ++ su.1, none⟩, ev1 ++ su.2.1 ++ [.stop sid])
          | none =>
            let te := runOptStep "test" analysis.test_command o.test
            match te.2.2 with
            | some e =>
              (⟨some sid, "error", some e, logs1 ++ su.1 ++ te.1, none⟩,
                ev1 ++ su.2.1 ++ te.2.1 ++ [.stop sid])
            | none =>
              let bu := runOptStep "build" analysis.build_command o.build
              match bu.2.2 with
              | some e =>
                (⟨some sid, "error", some e, logs1 ++ su.1 ++ te.1 ++ bu.1, none⟩,
                  ev1 ++ su.2.1 ++ te.2.1 ++ bu.2.1 ++ [.stop sid])
              | none =>
                let logs4 := logs1 ++ su.1 ++ te.1 ++ bu.1
                (⟨some sid, if logs4.any isCriticalFailure then "failed" else "success",
                  none, logs4, o.stats⟩,
                  ev1 ++ su.2.1 ++ te.2.1 ++ bu.2.1 ++ [.stats, .stop sid])

/-- Models `ExecutionController._get_file_extension(language)`. -/
def get_file_extension (language : String) : String :=
  let l := strLower language
  if l == "python" then "py"
  else if l == "javascript" then "js"
  else if l == "node" then "js"
  else if l == "typescript" then "ts"
  else if l == "java" then "java"
  else if l == "go" then "go"
  else if l == "rust" then "rs"
  else if l == "cpp" then "cpp"
  else if l == "c" then "c"
  else if l == "ruby" then "rb"
  else if l == "php" then "php"
  else "txt"

/-- Models `ExecutionController._get_run_command(language, filename)`. -/
def get_run_command (language filename : String) : String :=
  let l := strLower language
  if l == "python" then "python /tmp/" ++ filename
  else if l == "javascript" then "node /tmp/" ++ filename
  else if l == "node" then "node /tmp/" ++ filename
  else if l == "typescript" then "ts-node /tmp/" ++ filename
  else if l == "java" then "javac /tmp/" ++ filename ++ " && java " ++ filename.replace ".java" ""
  else if l == "go" then "go run /tmp/" ++ filename
  else if l == "rust" then "rustc /tmp/" ++ filename ++ " -o /tmp/output && /tmp/output"
  else if l == "cpp" then "g++ /tmp/" ++ filename ++ " -o /tmp/output && /tmp/output"
  else if l == "c" then "gcc /tmp/" ++ filename ++ " -o /tmp/output && /tmp/output"
  else if l == "ruby" then "ruby /tmp/" ++ filename
  else if l == "php" then "php /tmp/" ++ filename
  else "cat /tmp/" ++ filename

/-- Oracle for the engine calls of one `execute_code_snippet` run. -/
structure SnipOracle where
  create : Option String
  upload : Outcome Bool
  run : Outcome ExecResult

/-- The result dict of `execute_code_snippet` (`execution_id` elided;
`exit_code`/`execution_time` are absent from the error and
creation-failure dicts, hence optional). -/
structure SnipResult where
  sandbox_id : Option String
  status : String
  error : Option String
  stdout : String
  stderr : String
  exit_code : Option Int
  execution_time : Option ℚ
deriving DecidableEq, Repr

/-- Models `ExecutionController.execute_code_snippet(code, language, timeout)`,
with the trace of sandbox-manager calls.  The Boolean result of the upload is
ignored by the source, faithfully so here. -/
def execute_code_snippet (code language : String) (timeout : ℚ) (execution_id : String)
    (o : SnipOracle) : SnipResult × List Event :=
  let cfg : CreateCfg := ⟨language, "256m", 1/2, timeout, false⟩
  match o.create with
  | none =>
    (⟨none, "failed", some "Failed to create sandbox (Docker not available)", "", "", none, none⟩,
      [.create cfg none])
  | some sid =>
    let filename := "code_" ++ execution_id ++ "." ++ get_file_extension language
    let ev0 : List Event := [.create cfg (some sid), .upload ("/tmp/" ++ filename)]
    match o.upload with
    | .raise e => (⟨some sid, "error", some e, "", e, none, none⟩, ev0 ++ [.stop sid])
    | .ok _ =>
      let runCmd := get_run_command language filename
      let ev1 := ev0 ++ [.exec "run" runCmd]
      match o.run with
      | .raise e => (⟨some sid, "error", some e, "", e, none, none⟩, ev1 ++ [.stop sid])
      | .ok r =>
        (⟨some sid, if r.success then "success" else "failed", none, r.stdout, r.stderr,
          some r.exit_code, some r.execution_time⟩, ev1 ++ [.stop sid])

/-! ## The /execute/code endpoint (main_v2.py, execute_code) -/

/-- The three response shapes of the endpoint: an HTTPException (503 when
RunAnywhere or Docker is unavailable), the `status: "rejected"` dict, or
the controller result passed through. -/
inductive EndpointResp
  | httpError (status : Nat) (detail : String)
  | rejected (validation : Verdict)
  | finished (r : SnipResult)
deriving DecidableEq, Repr

/-- Models `POST /execute/code`: availability guards, then
`validate_code(code, language, strict_mode=True)`; an unsafe verdict
returns the rejected dict without calling the controller, otherwise
`execute_code_snippet` runs. -/
def execute_code_endpoint (runanywhere_available docker_available : Bool)
    (code language : String) (timeout : ℚ) (execution_id : String) (o : SnipOracle) :
    EndpointResp × List Event :=
  if !runanywhere_available then
    (.httpError 503 "RunAnywhere not available. Install: pip install docker", [])
  else if !docker_available then
    (.httpError 503 "Docker not available. Please start Docker Desktop.", [])
  else
    let validation := validate_code code language true
    if !validation.is_safe then (.rejected validation, [])
    else
      let res := execute_code_snippet code language timeout execution_id o
      (.finished res.1, res.2)

/-! ## Execution history (execute_repository line 362,
get_execution_history) -/

/-- A stored execution result: its sort key (`timestamp`, a completion
time) and status.  The remaining fields play no role in the history
claims. -/
structure HistEntry where
  timestamp : Nat
  status : String
deriving DecidableEq, Repr

/-- Models `self.execution_history`: a dict from execution id to result.
Execution ids are fresh uuid4 values, modelled as naturals. -/
abbrev History := List (Nat × HistEntry)

/-- Models `self.execution_history[execution_id] = execution_result`: overwrite
when the key exists, otherwise append. -/
def insertHistory (h : History) (id : Nat) (e : HistEntry) : History :=
  if h.any (fun p => p.1 == id) then
    h.map (fun p => if p.1 == id then (id, e) else p)
  else h ++ [(id, e)]

/-- A run of `n` completed executions stored in sequence, each under a fresh id
(uuid4 collisions do not occur), completing in id order. -/
def runInserts (n : Nat) : History :=
  (List.range n).foldl (fun h i => insertHistory h i ⟨i, "success"⟩) []

/-- Insertion into a list sorted by descending timestamp. -/
def insertDesc (e : Nat × HistEntry) : History → History
  | [] => [e]
  | x :: xs => if x.2.timestamp ≤ e.2.timestamp then e :: x :: xs else x :: insertDesc e xs

/-- Models `sorted(..., key=lambda x: x.get("timestamp"), reverse=True)`. -/
def sortDesc (h : History) : History := h.foldr insertDesc []

/-- Models `ExecutionController.get_execution_history(limit)`: all stored
results sorted most-recent-first, truncated to `limit`. -/
def get_execution_history (h : History) (limit : Nat) : History :=
  (sortDesc h).take limit

/-! ## Concrete fixtures used by witnesses and counterexamples -/

/-- Metadata of a small Python repository (the shape of Scenario B/C/D:
`metadata={language:"python"}`). -/
def pyRepo : RepoData := ⟨"Python", [], 0, 0⟩

/-- A successful command result. -/
def okRes : ExecResult := ⟨true, none, "", "", 0, 1⟩

/-- A non-zero-exit command result. -/
def failRes : ExecResult := ⟨false, none, "", "boom", 1, 1⟩

/-- Every engine call succeeds. -/
def oracleAllOk : RepoOracle := ⟨some "sb-1", .ok okRes, fun _ => .ok okRes, .ok okRes, .ok okRes, none⟩

/-- The test command exits non-zero; everything else succeeds. -/
def oracleTestFails : RepoOracle :=
  ⟨some "sb-1", .ok okRes, fun _ => .ok okRes, .ok failRes, .ok okRes, none⟩

/-- The first setup command exits non-zero; everything else succeeds. -/
def oracleSetupFails : RepoOracle :=
  ⟨some "sb-1", .ok okRes, fun i => .ok (if i == 0 then failRes else okRes), .ok okRes, .ok okRes, none⟩

/-- The clone command fails (unreachable URL). -/
def oracleCloneFails : RepoOracle :=
  ⟨some "sb-1", .ok failRes, fun _ => .ok okRes, .ok okRes, .ok okRes, none⟩

/-- The containerization engine is unreachable: `create()` returns None. -/
def oracleNoEngine : RepoOracle :=
  ⟨none, .ok okRes, fun _ => .ok okRes, .ok okRes, .ok okRes, none⟩

/-- An unexpected fault during the clone call. -/
def oracleCloneRaises : RepoOracle :=
  ⟨some "sb-1", .raise "boom", fun _ => .ok okRes, .ok okRes, .ok okRes, none⟩

/-- Snippet run where every engine call succeeds. -/
def snipOracleOk : SnipOracle := ⟨some "sb-2", .ok true, .ok okRes⟩

/-- Snippet run with an unexpected fault during command execution. -/
def snipOracleRaises : SnipOracle := ⟨some "sb-2", .ok true, .raise "boom"⟩

/-! ## Helper lemmas -/

/-- The setup loop issues only `exec` calls: no stop events. -/
theorem runSetups_no_stop (cmds : List String) (o : Nat → Outcome ExecResult) (i : Nat) :
    (runSetups cmds o i).2.1.filterMap Event.stopId = [] := by
  induction cmds generalizing i with
  | nil => simp [runSetups]
  | cons c cs ih =>
    cases h : o i with
    | raise e => simp [runSetups, h, Event.stopId]
    | ok r => simp [runSetups, h, Event.stopId, ih]

/-- The setup loop issues only `exec` calls: no sandbox creations. -/
theorem runSetups_no_create (cmds : List String) (o : Nat → Outcome ExecResult) (i : Nat) :
    (runSetups cmds o i).2.1.filterMap Event.createdId = [] := by
  induction cmds generalizing i with
  | nil => simp [runSetups]
  | cons c cs ih =>
    cases h : o i with
    | raise e => simp [runSetups, h, Event.createdId]
    | ok r => simp [runSetups, h, Event.createdId, ih]

/-- The optional step issues only `exec` calls: no stop events. -/
theorem runOptStep_no_stop (name : String) (cmd : Option String) (o : Outcome ExecResult) :
    (runOptStep name cmd o).2.1.filterMap Event.stopId = [] := by
  cases cmd with
  | none => simp [runOptStep]
  | some c => cases o <;> simp [runOptStep, Event.stopId]

/-- The optional step issues only `exec` calls: no sandbox creations. -/
theorem runOptStep_no_create (name : String) (cmd : Option String) (o : Outcome ExecResult) :
    (runOptStep name cmd o).2.1.filterMap Event.createdId = [] := by
  cases cmd with
  | none => simp [runOptStep]
  | some c => cases o <;> simp [runOptStep, Event.createdId]

/-- C2: every terminal path stops exactly the sandbox it provisioned:
for both pipelines, the list of sandbox ids passed to `stop()` equals the
list of successfully created sandbox ids — one stop, on the owning
sandbox, when provisioning succeeded (success, critical-failure and
unexpected-fault paths alike), and none when no sandbox was created. -/
theorem stop_called_exactly_once :
    (∀ (url : String) (rd : RepoData) (t : ℚ) (o : RepoOracle),
      (execute_repository url rd t o).2.filterMap Event.stopId
        = (execute_repository url rd t o).2.filterMap Event.createdId) ∧
    (∀ (code lang : String) (t : ℚ) (eid : String) (o : SnipOracle),
      (execute_code_snippet code lang t eid o).2.filterMap Event.stopId
        = (execute_code_snippet code lang t eid o).2.filterMap Event.createdId) := by
  constructor
  · intro url rd t o
    by_cases hex : (analyze_repository_executability rd).is_executable = true
    · cases hc : o.create with
      | none => simp [execute_repository, hex, hc, Event.stopId, Event.createdId]
      | some sid =>
        cases hcl : o.clone with
        | raise e => simp [execute_repository, hex, hc, hcl, Event.stopId, Event.createdId]
        | ok cr =>
          cases hs : cr.success
          · simp [execute_repository, hex, hc, hcl, hs, Event.stopId, Event.createdId]
          · cases hsu : (runSetups (analyze_repository_executability rd).setup_commands o.setup 0).2.2 <;>
              cases hte : (runOptStep "test" (analyze_repository_executability rd).test_command o.test).2.2 <;>
              cases hbu : (runOptStep "build" (analyze_repository_executability rd).build_command o.build).2.2 <;>
              simp [execute_repository, hex, hc, hcl, hs, hsu, hte, hbu, Event.stopId, Event.createdId,
                runSetups_no_stop, runSetups_no_create, runOptStep_no_stop, runOptStep_no_create]
    · simp [execute_repository, hex]
  · intro code lang t eid o
    cases hc : o.create with
    | none => simp [execute_code_snippet, hc, Event.stopId, Event.createdId]
    | some sid =>
      cases hu : o.upload with
      | raise e => simp [execute_code_snippet, hc, hu, Event.stopId, Event.createdId]
      | ok b =>
        cases hr : o.run <;>
          simp [execute_code_snippet, hc, hu, hr, Event.stopId, Event.createdId]

/-- C1: a snippet submission whose strict-mode security verdict has
`is_safe = false` terminates with the `rejected` response carrying that
verdict, and the trace of sandbox-manager calls is empty — neither
`create_sandbox` nor the snippet executor is ever invoked for it. -/
theorem unsafe_snippet_rejected_no_sandbox (code language : String) (t : ℚ) (eid : String)
    (o : SnipOracle) (h : (validate_code code language true).is_safe = false) :
    (execute_code_endpoint true true code language t eid o).1
        = .rejected (validate_code code language true)
      ∧ (execute_code_endpoint true true code language t eid o).2 = [] := by
  unfold execute_code_endpoint
  simp [h]

/-- Witness for C1: `import os` in strict mode is judged unsafe, and the
endpoint rejects it without issuing any sandbox call. -/
theorem unsafe_snippet_rejected_no_sandbox_witness :
    (validate_code "import os" "python" true).is_safe = false
      ∧ ((execute_code_endpoint true true "import os" "python" 30 "e1" snipOracleOk).1
          = .rejected (validate_code "import os" "python" true)
        ∧ (execute_code_endpoint true true "import os" "python" 30 "e1" snipOracleOk).2 = []) :=
  ⟨by decide, unsafe_snippet_rejected_no_sandbox "import os" "python" 30 "e1" snipOracleOk (by decide)⟩

/-- C6: when the containerization capability is unreachable
(`is_available()` false) `create_sandbox` returns `None` — it is a total
function, it never raises; and a repository execution whose `create()`
comes back `None` ends with status `failed`, the engine-unavailability
error text, and an empty step log. -/
theorem engine_unavailable_fails_cleanly :
    (∀ (c : CreateCfg) (engine : Option String), create_sandbox false c engine = none) ∧
    (∀ (url : String) (rd : RepoData) (t : ℚ) (o : RepoOracle),
      (analyze_repository_executability rd).is_executable = true → o.create = none →
      ((execute_repository url rd t o).1.status = "failed"
        ∧ (execute_repository url rd t o).1.error
            = some "Failed to create sandbox (Docker not available)"
        ∧ (execute_repository url rd t o).1.logs = [])) := by
  constructor
  · intro c engine; rfl
  · intro url rd t o hex hc
    simp [execute_repository, hex, hc]

/-- Witness for C6: Scenario B — a Python repository with the engine
unreachable fails with the unavailability reason and no step logs. -/
theorem engine_unavailable_fails_cleanly_witness :
    (analyze_repository_executability pyRepo).is_executable = true
      ∧ oracleNoEngine.create = none
      ∧ ((execute_repository "https://github.com/x/y" pyRepo 300 oracleNoEngine).1.status = "failed"
        ∧ (execute_repository "https://github.com/x/y" pyRepo 300 oracleNoEngine).1.error
            = some "Failed to create sandbox (Docker not available)"
        ∧ (execute_repository "https://github.com/x/y" pyRepo 300 oracleNoEngine).1.logs = []) :=
  ⟨by decide, rfl,
    engine_unavailable_fails_cleanly.2 "https://github.com/x/y" pyRepo 300 oracleNoEngine
      (by decide) rfl⟩

/-- C7: a command whose measured wall time exceeds its timeout is
reported with `success = false` and the distinguished timeout marker
(`error = "Execution timeout"`), never as success; a command within its
timeout carries `error = None` and `success ↔ exit code = 0`, so a
timeout is never conflated with a normal non-zero-exit failure. -/
theorem timeout_marked_not_success (t wall : ℚ) (out err : String) (code : Int) :
    (t < wall →
      (execute_in_sandbox true t (.ok out err code wall)).success = false
        ∧ (execute_in_sandbox true t (.ok out err code wall)).error = some "Execution timeout")
    ∧ (¬ t < wall →
      (execute_in_sandbox true t (.ok out err code wall)).error = none
        ∧ (execute_in_sandbox true t (.ok out err code wall)).success = (code == 0)) := by
  constructor <;> intro h <;> simp [execute_in_sandbox, h]

/-- Witness for C7: a command with timeout 5 finishing at wall time 6 is
recorded as a failed timeout. -/
theorem timeout_marked_not_success_witness :
    (5:ℚ) < 6
      ∧ ((execute_in_sandbox true 5 (.ok "" "" 0 6)).success = false
        ∧ (execute_in_sandbox true 5 (.ok "" "" 0 6)).error = some "Execution timeout") :=
  ⟨by decide, (timeout_marked_not_success 5 6 "" "" 0).1 (by decide)⟩

/-- C10: every snippet execution issues exactly one sandbox-creation
call and it has `network_enabled = false`; and `create_sandbox` turns
`network_enabled = false` into a container configured with
`network_mode = "none"` and `network_disabled = true`. -/
theorem snippet_network_disabled :
    (∀ (code lang : String) (t : ℚ) (eid : String) (o : SnipOracle),
      ((execute_code_snippet code lang t eid o).2.filterMap Event.createCfg).map
          (fun c => c.network_enabled) = [false]) ∧
    (∀ c : CreateCfg, c.network_enabled = false →
      (containerConfig c).network_mode = "none" ∧ (containerConfig c).network_disabled = true) := by
  constructor
  · intro code lang t eid o
    cases hc : o.create with
    | none => simp [execute_code_snippet, hc, Event.createCfg]
    | some sid =>
      cases hu : o.upload with
      | raise e => simp [execute_code_snippet, hc, hu, Event.createCfg, Event.stopId]
      | ok b =>
        cases hr : o.run <;>
          simp [execute_code_snippet, hc, hu, hr, Event.createCfg, Event.stopId]
  · intro c h
    simp [containerConfig, h]

/-- Witness for C10: the snippet-class create request with networking off
yields a `none`-network container. -/
theorem snippet_network_disabled_witness :
    (⟨"python", "256m", 1/2, 30, false⟩ : CreateCfg).network_enabled = false
      ∧ ((containerConfig ⟨"python", "256m", 1/2, 30, false⟩).network_mode = "none"
        ∧ (containerConfig ⟨"python", "256m", 1/2, 30, false⟩).network_disabled = true) :=
  ⟨rfl, snippet_network_disabled.2 ⟨"python", "256m", 1/2, 30, false⟩ rfl⟩

/-! ### The literal-pattern regexes are case-insensitive substring tests -/

theorem matchHere_eps (s : List Char) : matchHere .eps s = true := by
  cases s <;> simp [matchHere, Re.nullable]

theorem matchHere_alt (a b : Re) (s : List Char) :
    matchHere (.alt a b) s = (matchHere a s || matchHere b s) := by
  induction s generalizing a b with
  | nil => simp [matchHere, Re.nullable]
  | cons c cs ih =>
    simp only [matchHere, Re.nullable, Re.deriv, ih]
    cases a.nullable <;> cases b.nullable <;> simp

theorem matchHere_seq_emp (r : Re) (s : List Char) :
    matchHere (.seq .emp r) s = false := by
  induction s with
  | nil => simp [matchHere, Re.nullable]
  | cons c cs ih => simp [matchHere, Re.nullable, Re.deriv, ih]

theorem matchHere_seq_eps (r : Re) (s : List Char) :
    matchHere (.seq .eps r) s = matchHere r s := by
  cases s with
  | nil => simp [matchHere, Re.nullable]
  | cons c cs =>
    simp [matchHere, Re.nullable, Re.deriv, matchHere_alt, matchHere_seq_emp]

theorem chc_nullable (a : Char) : (chc a).nullable = false := rfl

theorem chc_deriv (a b : Char) :
    Re.deriv (chc a) b = if b.toLower = a.toLower then Re.eps else Re.emp := by
  simp [chc, Re.deriv, List.contains]

/-- A literal word (built from case-insensitive characters, like the
`github\.com` patterns) matches at the front exactly when it is a
case-insensitive prefix. -/
theorem matchHere_literal (w : List Char) (s : List Char) :
    matchHere (List.foldr (fun c r => Re.seq (chc c) r) Re.eps w) s = isPrefCI w s := by
  induction w generalizing s with
  | nil => simp [isPrefCI, matchHere_eps]
  | cons a as ih =>
    cases s with
    | nil => simp [matchHere, Re.nullable, chc, isPrefCI]
    | cons b bs =>
      have hd : Re.deriv (Re.seq (chc a) (List.foldr (fun c r => Re.seq (chc c) r) Re.eps as)) b
          = Re.seq (Re.deriv (chc a) b) (List.foldr (fun c r => Re.seq (chc c) r) Re.eps as) := by
        simp [Re.deriv, chc_nullable]
      simp only [List.foldr, matchHere, hd, Re.nullable, chc_nullable, Bool.false_and,
        Bool.false_or, chc_deriv, isPrefCI]
      by_cases hb : b.toLower = a.toLower
      · simp [hb, matchHere_seq_eps, ih]
      · simp [hb, matchHere_seq_emp]

theorem nullable_literal (w : List Char) :
    (List.foldr (fun c r => Re.seq (chc c) r) Re.eps w).nullable = w.isEmpty := by
  cases w <;> simp [Re.nullable, chc]

/-- Searching a literal pattern is case-insensitive substring
containment. -/
theorem reSearch_strRe (w : String) (s : List Char) :
    reSearch (strRe w) s = containsCI w.data s := by
  show reSearch (List.foldr (fun c r => Re.seq (chc c) r) Re.eps w.data) s = containsCI w.data s
  induction s with
  | nil => simp [reSearch, containsCI, nullable_literal]
  | cons c cs ih => simp [reSearch, containsCI, matchHere_literal, ih]

/-- Counterexample to C3: `validate_repository_url` accepts
`https://evil.com/github.com`, whose host component `evil.com` is not in
the allow-list — the source applies `re.search` over the whole URL, not
to its host. -/
theorem validate_repository_url_host_counterexample :
    validate_repository_url "https://evil.com/github.com" = true
      ∧ urlHost "https://evil.com/github.com" = "evil.com"
      ∧ "evil.com" ∉ (["github.com", "gitlab.com", "bitbucket.org"] : List String) := by
  refine ⟨by decide, by decide, by decide⟩

/-- C3 (amended): `validate_repository_url(url)` returns true iff the
URL contains `github.com`, `gitlab.com` or `bitbucket.org` as a
case-insensitive substring anywhere — a containment test on the full URL
string, not a check that the URL host is in the allow-list. -/
theorem validate_repository_url_substring (url : String) :
    validate_repository_url url
      = (containsCI "github.com".data url.data || containsCI "gitlab.com".data url.data
          || containsCI "bitbucket.org".data url.data) := by
  simp [validate_repository_url, SAFE_DOMAINS, reSearch_strRe, Bool.or_assoc]

/-! ### validate_code: risk level versus issue severities -/

theorem maxSeverity_append_one (l : List Issue) (i : Issue) :
    maxSeverity (l ++ [i]) = maxRisk (maxSeverity l) i.severity := by
  simp [maxSeverity]

theorem maxRisk_high (x : Risk) : maxRisk x .high = .high := by
  cases x <;> rfl

/-- In strict mode the dangerous-pattern scan keeps `risk_level` equal to
the maximum severity of the issues accumulated so far. -/
theorem dangerFold_inv (code : List Char) (ps : List (String × Re)) (acc : List Issue × Risk)
    (h : acc.2 = maxSeverity acc.1) :
    (ps.foldl (dangerStep true code) acc).2 = maxSeverity (ps.foldl (dangerStep true code) acc).1 := by
  induction ps generalizing acc with
  | nil => exact h
  | cons p ps ih =>
    apply ih
    unfold dangerStep
    split
    · simp [maxSeverity_append_one, maxRisk_high]
    · exact h

/-- The loop-heuristic scan preserves the same invariant (in any mode). -/
theorem loopFold_inv (code : List Char) (ps : List (String × Re)) (acc : List Issue × Risk)
    (h : acc.2 = maxSeverity acc.1) :
    (ps.foldl (loopStep code) acc).2 = maxSeverity (ps.foldl (loopStep code) acc).1 := by
  induction ps generalizing acc with
  | nil => exact h
  | cons p ps ih =>
    apply ih
    unfold loopStep
    split
    · simp [maxSeverity_append_one, h]
    · exact h

/-- Strict-mode `validate_code` computes `risk_level` as the maximum
severity over the accumulated issues. -/
theorem validate_code_strict_risk (code language : String) :
    (validate_code code language true).risk_level
      = maxSeverity (validate_code code language true).issues := by
  unfold validate_code
  apply loopFold_inv
  split
  · rw [dangerFold_inv code.data _ ([], .safe) rfl]
    simp [maxSeverity_append_one]
  · exact dangerFold_inv code.data _ ([], .safe) rfl

/-- Counterexample to C8: with strict mode off, a matched dangerous
pattern is recorded with severity `medium` but still forces
`risk_level = high`, so `risk_level` is not the maximum severity over the
matched issues. -/
theorem validate_code_risk_counterexample :
    (validate_code "import os" "python" false).risk_level
      ≠ maxSeverity (validate_code "import os" "python" false).issues := by decide

/-- C8 (amended): in strict mode `risk_level` equals the maximum
severity over all matched issues; `is_safe` equals
`risk_level ≠ high` when strict mode is on and is always true otherwise.
(With strict mode off, a matched dangerous pattern still forces
`risk_level = high` although its recorded severity is only `medium`.) -/
theorem validate_code_risk (code language : String) (strict : Bool) :
    (strict = true →
      (validate_code code language strict).risk_level
        = maxSeverity (validate_code code language strict).issues)
    ∧ (validate_code code language strict).is_safe
        = (((validate_code code language strict).risk_level != .high) || !strict) := by
  constructor
  · intro hs; subst hs
    exact validate_code_strict_risk code language
  · rfl

/-- Witness for amended C8: strict-mode validation of `import os`. -/
theorem validate_code_risk_witness :
    (validate_code "import os" "python" true).risk_level
        = maxSeverity (validate_code "import os" "python" true).issues
      ∧ (validate_code "import os" "python" true).is_safe
        = (((validate_code "import os" "python" true).risk_level != .high) || !true) :=
  ⟨(validate_code_risk "import os" "python" true).1 rfl,
    (validate_code_risk "import os" "python" true).2⟩

/-! ### Step-log shape lemmas for the repository pipeline -/

/-- Setup completion entries are `success` or `warning`, never `failed`,
and all carry a `setup_i` step name: the loop can never register a
critical failure. -/
theorem runSetups_no_critical (cmds : List String) (o : Nat → Outcome ExecResult) (i : Nat) :
    (runSetups cmds o i).1.any isCriticalFailure = false := by
  induction cmds generalizing i with
  | nil => simp [runSetups]
  | cons c cs ih =>
    cases h : o i with
    | raise e => simp [runSetups, h, isCriticalFailure]
    | ok r =>
      cases hs : r.success <;>
        simp [runSetups, h, hs, isCriticalFailure, ih]

/-- A test step never registers a critical failure: its step name is
`test`, which is not in `["clone", "build"]`. -/
theorem runOptStep_test_no_critical (cmd : Option String) (o : Outcome ExecResult) :
    (runOptStep "test" cmd o).1.any isCriticalFailure = false := by
  cases cmd with
  | none => simp [runOptStep]
  | some c =>
    cases o with
    | raise e => simp [runOptStep, isCriticalFailure]
    | ok r => cases hs : r.success <;> simp [runOptStep, hs, isCriticalFailure]

/-- A step whose command succeeded never registers a critical failure. -/
theorem runOptStep_ok_success_no_critical (name : String) (cmd : Option String)
    (r : ExecResult) (h : r.success = true) :
    (runOptStep name cmd (.ok r)).1.any isCriticalFailure = false := by
  cases cmd <;> simp [runOptStep, h, isCriticalFailure]

/-- When no setup call faults, the loop completes without propagating an
exception. -/
theorem runSetups_no_raise (cmds : List String) (o : Nat → Outcome ExecResult)
    (hnr : ∀ k, ∃ rr, o k = .ok rr) (i : Nat) :
    (runSetups cmds o i).2.2 = none := by
  induction cmds generalizing i with
  | nil => simp [runSetups]
  | cons c cs ih =>
    obtain ⟨r0, h0⟩ := hnr i
    simp [runSetups, h0, ih]

/-- An optional step whose call returned normally does not propagate an
exception. -/
theorem runOptStep_ok_no_raise (name : String) (cmd : Option String) (r : ExecResult) :
    (runOptStep name cmd (.ok r)).2.2 = none := by
  cases cmd <;> simp [runOptStep]

/-- A failed setup command is logged with status `warning`. -/
theorem runSetups_warning_mem (cmds : List String) (o : Nat → Outcome ExecResult)
    (hnr : ∀ k, ∃ rr, o k = .ok rr) :
    ∀ i j, j < cmds.length → ∀ r, o (i + j) = .ok r → r.success = false →
      (⟨"setup_" ++ toString (i + j), "warning"⟩ : LogEntry) ∈ (runSetups cmds o i).1 := by
  induction cmds with
  | nil => intro i j hj; simp at hj
  | cons c cs ih =>
    intro i j hj r ho hf
    obtain ⟨r0, h0⟩ := hnr i
    cases j with
    | zero =>
      rw [Nat.add_zero] at ho ⊢
      rw [h0] at ho
      cases ho
      simp [runSetups, h0, hf]
    | succ j0 =>
      have harg : i + (j0 + 1) = (i + 1) + j0 := by omega
      rw [harg]
      have hmem := ih (i + 1) j0 (by simpa using hj) r (by rw [← harg]; exact ho) hf
      simp only [runSetups, h0]
      exact List.mem_cons_of_mem _ (List.mem_cons_of_mem _ hmem)

/-- C4 (amended): in a repository pipeline where the clone and build
steps succeed and no call faults, a failed setup command is logged with
status `warning` and a failed test command with status `failed`; in both
cases the pipeline continues (the remaining steps still run) and the
overall result status is `success` — a non-critical (setup or test)
failure alone never makes the result `failed`. -/
theorem noncritical_failure_not_fatal
    (url : String) (rd : RepoData) (t : ℚ) (o : RepoOracle)
    (hex : (analyze_repository_executability rd).is_executable = true)
    (sid : String) (hc : o.create = some sid)
    (cr : ExecResult) (hcl : o.clone = .ok cr) (hcs : cr.success = true)
    (hnr : ∀ k, ∃ rr, o.setup k = .ok rr)
    (tr : ExecResult) (hte : o.test = .ok tr)
    (rb : ExecResult) (hbu : o.build = .ok rb) (hbs : rb.success = true) :
    (execute_repository url rd t o).1.status = "success"
      ∧ (∀ j r, j < (analyze_repository_executability rd).setup_commands.length →
          o.setup j = .ok r → r.success = false →
          (⟨"setup_" ++ toString j, "warning"⟩ : LogEntry) ∈ (execute_repository url rd t o).1.logs)
      ∧ (∀ tc, (analyze_repository_executability rd).test_command = some tc →
          tr.success = false →
          (⟨"test", "failed"⟩ : LogEntry) ∈ (execute_repository url rd t o).1.logs) := by
  have hsu := runSetups_no_raise (analyze_repository_executability rd).setup_commands o.setup hnr 0
  have hteN := runOptStep_ok_no_raise "test" (analyze_repository_executability rd).test_command tr
  have hbuN := runOptStep_ok_no_raise "build" (analyze_repository_executability rd).build_command rb
  refine ⟨?_, ?_, ?_⟩
  · simp only [execute_repository, hex, hc, hcl, hcs, hte, hbu]
    simp only [Bool.not_true, Bool.false_eq_true, if_false, hsu, hteN, hbuN]
    simp [List.any_append, runSetups_no_critical, runOptStep_test_no_critical,
      runOptStep_ok_success_no_critical _ _ _ hbs, isCriticalFailure]
  · intro j r hj ho hf
    simp only [execute_repository, hex, hc, hcl, hcs, hte, hbu]
    simp only [Bool.not_true, Bool.false_eq_true, if_false, hsu, hteN, hbuN]
    have := runSetups_warning_mem (analyze_repository_executability rd).setup_commands o.setup
      hnr 0 j hj r (by simpa using ho) hf
    simp only [Nat.zero_add] at this
    simp [this]
  · intro tc htc htf
    simp only [execute_repository, hex, hc, hcl, hcs, hte, hbu]
    simp only [Bool.not_true, Bool.false_eq_true, if_false, hsu, hteN, hbuN]
    simp [runOptStep, htc, htf]

/-- Counterexample to C4: with a failing test command the completion
entry is logged with status `failed`, not `warning` (the claim text "logged
with status warning" does not hold for the test step), even though the
overall result is still `success`. -/
theorem noncritical_failure_counterexample :
    (⟨"test", "failed"⟩ : LogEntry)
        ∈ (execute_repository "https://github.com/x/y" pyRepo 300 oracleTestFails).1.logs
      ∧ (∀ l ∈ (execute_repository "https://github.com/x/y" pyRepo 300 oracleTestFails).1.logs,
          ¬(l.step = "test" ∧ l.status = "warning"))
      ∧ (execute_repository "https://github.com/x/y" pyRepo 300 oracleTestFails).1.status
          = "success" := by
  refine ⟨by decide, by decide, by decide⟩

/-- Witness for amended C4: Scenario D-like run (setup 0 fails, test and
build calls return, clone succeeds) ends with status `success` and logs
the failed setup as a warning. -/
theorem noncritical_failure_not_fatal_witness :
    (execute_repository "https://github.com/x/y" pyRepo 300 oracleSetupFails).1.status = "success"
      ∧ (⟨"setup_0", "warning"⟩ : LogEntry)
          ∈ (execute_repository "https://github.com/x/y" pyRepo 300 oracleSetupFails).1.logs := by
  have h := noncritical_failure_not_fatal "https://github.com/x/y" pyRepo 300 oracleSetupFails
    (by decide) "sb-1" rfl okRes rfl rfl
    (fun k => ⟨if k == 0 then failRes else okRes, rfl⟩)
    okRes rfl okRes rfl rfl
  exact ⟨h.1, h.2.1 0 failRes (by decide) rfl rfl⟩

/-- The `running` entries of the setup loop, in order, are exactly the
steps it issued. -/
theorem runSetups_running_steps (cmds : List String) (o : Nat → Outcome ExecResult) (i : Nat) :
    ((runSetups cmds o i).1.filter (fun l => l.status == "running")).map (fun l => l.step)
      = (runSetups cmds o i).2.1.filterMap Event.execStep := by
  induction cmds generalizing i with
  | nil => simp [runSetups]
  | cons c cs ih =>
    cases h : o i with
    | raise e => simp [runSetups, h, Event.execStep]
    | ok r =>
      cases hs : r.success <;>
        simp [runSetups, h, hs, Event.execStep, ih]

/-- Same for an optional test/build step. -/
theorem runOptStep_running_steps (name : String) (cmd : Option String) (o : Outcome ExecResult) :
    ((runOptStep name cmd o).1.filter (fun l => l.status == "running")).map (fun l => l.step)
      = (runOptStep name cmd o).2.1.filterMap Event.execStep := by
  cases cmd with
  | none => simp [runOptStep]
  | some c =>
    cases o with
    | raise e => simp [runOptStep, Event.execStep]
    | ok r => cases hs : r.success <;> simp [runOptStep, hs, Event.execStep]

/-- C5: the step log records, in issuance order, exactly the steps
that were issued — on every path the `running` entries of the log, in
order, equal the commands the pipeline sent to the sandbox; and when the
clone step fails the result is `failed` with log exactly
`[clone:running, clone:failed]` and clone is the only step ever issued —
no setup, test or build step is attempted. -/
theorem critical_step_failure_log :
    (∀ (url : String) (rd : RepoData) (t : ℚ) (o : RepoOracle),
      ((execute_repository url rd t o).1.logs.filter (fun l => l.status == "running")).map
          (fun l => l.step)
        = (execute_repository url rd t o).2.filterMap Event.execStep) ∧
    (∀ (url : String) (rd : RepoData) (t : ℚ) (o : RepoOracle) (sid : String) (cr : ExecResult),
      (analyze_repository_executability rd).is_executable = true →
      o.create = some sid → o.clone = .ok cr → cr.success = false →
      ((execute_repository url rd t o).1.status = "failed"
        ∧ (execute_repository url rd t o).1.logs
            = [⟨"clone", "running"⟩, ⟨"clone", "failed"⟩]
        ∧ (execute_repository url rd t o).2.filterMap Event.execStep = ["clone"])) := by
  constructor
  · intro url rd t o
    by_cases hex : (analyze_repository_executability rd).is_executable = true
    · cases hc : o.create with
      | none => simp [execute_repository, hex, hc, Event.execStep]
      | some sid =>
        cases hcl : o.clone with
        | raise e => simp [execute_repository, hex, hc, hcl, Event.execStep]
        | ok cr =>
          cases hs : cr.success
          · simp [execute_repository, hex, hc, hcl, hs, Event.execStep]
          · cases hsu : (runSetups (analyze_repository_executability rd).setup_commands o.setup 0).2.2 <;>
              cases hte : (runOptStep "test" (analyze_repository_executability rd).test_command o.test).2.2 <;>
              cases hbu : (runOptStep "build" (analyze_repository_executability rd).build_command o.build).2.2 <;>
              simp [execute_repository, hex, hc, hcl, hs, hsu, hte, hbu, Event.execStep,
                runSetups_running_steps, runOptStep_running_steps, List.filter_append,
                List.filterMap_append]
    · simp [execute_repository, hex]
  · intro url rd t o sid cr hex hc hcl hcf
    simp [execute_repository, hex, hc, hcl, hcf, Event.execStep]

/-- Witness for C5: Scenario C — the clone step fails, the log is exactly
`[clone:running, clone:failed]`, the status is `failed`, and clone was
the only issued step. -/
theorem critical_step_failure_log_witness :
    (execute_repository "https://github.com/x/y" pyRepo 300 oracleCloneFails).1.status = "failed"
      ∧ (execute_repository "https://github.com/x/y" pyRepo 300 oracleCloneFails).1.logs
          = [⟨"clone", "running"⟩, ⟨"clone", "failed"⟩]
      ∧ (execute_repository "https://github.com/x/y" pyRepo 300 oracleCloneFails).2.filterMap
          Event.execStep = ["clone"] :=
  critical_step_failure_log.2 "https://github.com/x/y" pyRepo 300 oracleCloneFails "sb-1" failRes
    (by decide) rfl rfl rfl

/-! ### Execution history -/

theorem runInserts_eq (n : Nat) :
    runInserts n = (List.range n).map (fun i => (i, ⟨i, "success"⟩)) := by
  induction n with
  | zero => rfl
  | succ m ih =>
    unfold runInserts
    rw [List.range_succ, List.foldl_append]
    show insertHistory (runInserts m) m ⟨m, "success"⟩ = _
    rw [ih]
    have hno : (((List.range m).map (fun i => ((i, ⟨i, "success"⟩) : Nat × HistEntry))).any
        (fun p => p.1 == m)) = false := by
      rw [List.any_eq_false]
      intro p hp
      simp only [List.mem_map, List.mem_range] at hp
      obtain ⟨i, hi, rfl⟩ := hp
      simp [Nat.ne_of_lt hi]
    rw [insertHistory, hno]
    simp [List.range_succ]

theorem runInserts_length (n : Nat) : (runInserts n).length = n := by
  rw [runInserts_eq]; simp

/-- Counterexample to C9: the stored execution history is not bounded
by any fixed capacity — after `n` completed executions the dict holds `n`
entries, for every `n`; nothing is ever evicted. -/
theorem execution_history_unbounded :
    ¬ ∃ cap : Nat, ∀ n : Nat, (runInserts n).length ≤ cap := by
  rintro ⟨cap, h⟩
  have hlen := h (cap + 1)
  rw [runInserts_length] at hlen
  omega

/-- Descending-timestamp order between two stored results. -/
def histGE (a b : Nat × HistEntry) : Prop := b.2.timestamp ≤ a.2.timestamp

theorem mem_insertDesc (e x : Nat × HistEntry) (l : History) :
    x ∈ insertDesc e l → x = e ∨ x ∈ l := by
  induction l with
  | nil => simp [insertDesc]
  | cons y ys ih =>
    simp only [insertDesc]
    split
    · intro h; simpa using h
    · intro h
      rcases List.mem_cons.mp h with h1 | h2
      · exact Or.inr (by simp [h1])
      · rcases ih h2 with h3 | h4
        · exact Or.inl h3
        · exact Or.inr (List.mem_cons_of_mem _ h4)

theorem pairwise_insertDesc (e : Nat × HistEntry) (l : History)
    (h : l.Pairwise histGE) : (insertDesc e l).Pairwise histGE := by
  induction l with
  | nil => simp [insertDesc, List.pairwise_cons]
  | cons y ys ih =>
    rcases List.pairwise_cons.mp h with ⟨hy, hys⟩
    simp only [insertDesc]
    split
    · refine List.pairwise_cons.mpr ⟨?_, h⟩
      intro z hz
      rcases List.mem_cons.mp hz with h1 | h2
      · subst h1; assumption
      · exact Nat.le_trans (hy z h2) (by assumption)
    · refine List.pairwise_cons.mpr ⟨?_, ih hys⟩
      intro z hz
      rcases mem_insertDesc e z ys hz with h1 | h2
      · subst h1
        unfold histGE
        omega
      · exact hy z h2

theorem sortDesc_pairwise (h : History) : (sortDesc h).Pairwise histGE := by
  induction h with
  | nil => simp [sortDesc]
  | cons x xs ih => exact pairwise_insertDesc x (sortDesc xs) ih

/-- C9 (amended): the execution history is an unbounded in-memory
dict — after `n` completed executions it holds exactly `n` entries and
none is ever evicted; boundedness lives only in the lookup:
`get_execution_history(limit)` returns at most `limit` entries, sorted
most-recent-first (descending completion timestamp). -/
theorem execution_history_amended :
    (∀ n : Nat, (runInserts n).length = n)
      ∧ (∀ (h : History) (limit : Nat), (get_execution_history h limit).length ≤ limit)
      ∧ (∀ (h : History) (limit : Nat), (get_execution_history h limit).Pairwise histGE) := by
  refine ⟨runInserts_length, ?_, ?_⟩
  · intro h limit
    simpa [get_execution_history] using List.length_take_le limit (sortDesc h)
  · intro h limit
    exact List.Pairwise.take (sortDesc_pairwise h)
